import Mathlib

/-!
Verification of the tezsign FFS registrar EP0 control-endpoint core.

The Go source (`drainEP0Events` and `main` in the registrar binary) reads
fixed-size kernel event frames from the EP0 device file, decodes embedded
8-byte USB SETUP packets, answers the single recognized vendor "ready"
request with a fixed-format reply truncated to the host's wLength, and
signals STALL for anything unrecognized via a zero-length write.

The embedding below mirrors the source: bytes are `Nat` values below 256,
buffers are `List Nat`, the device interaction of one loop iteration is a
list of observable actions, and the loop itself folds a finite schedule of
read results (each paired with the readiness value current at that
iteration) into the full action trace.
-/

/-- Retry delay (in seconds) slept after a non-EOF read failure, mirroring
the Go constant `ep0ReadRetryDelay = time.Second`. -/
def ep0ReadRetryDelay : Nat := 1

/-- Modelled from the spec: the event frame size constant `evSize` is defined
outside the provided source (only its uses in `drainEP0Events` are present).
The spec's EventFrame layout and the source's inline comment
`[65 90 0 0 0 0 8 0 | 4 | 0 0 0]` show 8 raw SETUP bytes, one event-type
byte at offset 8, and 3 reserved bytes. -/
def evSize : Nat := 12

/-- Modelled from the spec: the setup event-type discriminator `evTypeSetup`
is defined outside the provided source; the source's inline comment marks the
value 4 at offset 8 as `evType` of a setup event. -/
def evTypeSetup : Nat := 4

/-- Modelled from the spec: the request-type constant `bmReqTypeVendorIn`
(vendor | IN direction) is defined outside the provided source; the standard
USB encoding of vendor|device-to-host is 0xC0. -/
def bmReqTypeVendorIn : Nat := 0xC0

/-- Modelled from the spec: the fixed vendor "ready" request code
`vendorReqReady` (the spec's READY_CODE) is defined outside the provided
source; it is a fixed byte constant per build. -/
def vendorReqReady : Nat := 0x01

/-- Modelled from the spec: the fixed protocol version constant
`protoVersion` (a u16, written little-endian into the vendor reply) is
defined outside the provided source. -/
def protoVersion : Nat := 1

/-- Decoded USB SETUP packet, with the Go field names. -/
structure SetupPacket where
  bmRequestType : Nat
  bRequest : Nat
  wValue : Nat
  wIndex : Nat
  wLength : Nat
  deriving Repr, DecidableEq

/-- Modelled from the spec: `parseCtrlReq` is defined outside the provided
source (only its caller `drainEP0Events` is present). Spec contract: given
exactly 8 bytes, produce a SetupPacket with `requestType` = byte 0,
`request` = byte 1, and `length` decoded as little-endian u16 from bytes
6 and 7; `wValue` and `wIndex` occupy bytes 2-3 and 4-5 little-endian and
are unused by the loop. -/
def parseCtrlReq (b : List Nat) : SetupPacket :=
  { bmRequestType := b.getD 0 0
  , bRequest := b.getD 1 0
  , wValue := b.getD 2 0 + 256 * b.getD 3 0
  , wIndex := b.getD 4 0 + 256 * b.getD 5 0
  , wLength := b.getD 6 0 + 256 * b.getD 7 0 }

/-- The 8-byte vendor reply assembled in `drainEP0Events`: a zeroed 8-byte
array, the ASCII tag "TZSG" copied into bytes 0-3, `protoVersion` written
little-endian into bytes 4-5, and the (byte-truncated) readiness value at
byte 6; byte 7 stays zero. -/
def buildVendorReply (ready : Nat) : List Nat :=
  [0x54, 0x5A, 0x53, 0x47, protoVersion % 256, protoVersion / 256 % 256,
   ready % 256, 0]

/-- The data stage actually written for a recognized vendor request:
`reply[:wlen]` where `wlen` is the host's wLength clamped to the 8-byte
reply size, mirroring the Go clamp `if wlen > len(reply) { wlen = len(reply) }`. -/
def vendorReplyData (ready wLength : Nat) : List Nat :=
  let wlen := if wLength > 8 then 8 else wLength
  (buildVendorReply ready).take wlen

/-- Result of one blocking read from the EP0 device file. -/
inductive ReadResult where
  | eof : ReadResult
  | err : ReadResult
  | ok : List Nat → ReadResult
  deriving Repr, DecidableEq

/-- Observable action of the event loop at the device-file and
logging interface. `warnSleepRetry` is the warn-log plus fixed-delay sleep
taken after a non-EOF read failure; `warnShort` is the warn-log on a short
read (carrying the byte count); `write` is a write of the given bytes to
the EP0 handle (a zero-length write being the STALL signal); `stop` is the
clean return from the loop. -/
inductive EP0Action where
  | warnSleepRetry : Nat → EP0Action
  | warnShort : Nat → EP0Action
  | write : List Nat → EP0Action
  | stop : EP0Action
  deriving Repr, DecidableEq

/-- Dispatch of one fully-read event frame, mirroring the body of
`drainEP0Events` after the short-read guard: a frame whose event type is
not the setup discriminator is discarded; a setup frame is decoded with
`parseCtrlReq`, the recognized vendor ready request receives the clamped
vendor reply, and any other SETUP receives the zero-length STALL write. -/
def dispatchFrame (buf : List Nat) (ready : Nat) : List EP0Action :=
  let evType := buf.getD 8 0
  if evType ≠ evTypeSetup then
    []
  else
    let req := parseCtrlReq (buf.take 8)
    if req.bmRequestType = bmReqTypeVendorIn ∧ req.bRequest = vendorReqReady then
      [EP0Action.write (vendorReplyData ready req.wLength)]
    else
      [EP0Action.write []]

/-- Actions of one loop iteration of `drainEP0Events` for one read result:
EOF returns from the loop; any other read error warns and sleeps the fixed
retry delay; a short read (fewer than `evSize` bytes) is logged and
discarded; a full frame is dispatched. -/
def stepEP0 (r : ReadResult) (ready : Nat) : List EP0Action :=
  match r with
  | ReadResult.eof => [EP0Action.stop]
  | ReadResult.err => [EP0Action.warnSleepRetry ep0ReadRetryDelay]
  | ReadResult.ok buf =>
    if buf.length < evSize then
      [EP0Action.warnShort buf.length]
    else
      dispatchFrame buf ready

/-- The EP0 event loop over a finite schedule of read results, each paired
with the readiness value current at that iteration: iterations run strictly
in order, the trace of one iteration completes before the next read, and
the loop returns only on EOF. -/
def drainEP0Events : List (ReadResult × Nat) → List EP0Action
  | [] => []
  | (ReadResult.eof, _) :: _ => [EP0Action.stop]
  | (r, ready) :: rest => stepEP0 r ready ++ drainEP0Events rest

/-- Helper: indexing with a default below the cut does not see a `take`. -/
theorem getD_take_of_lt (l : List Nat) (n i : Nat) (h : i < n) :
    (l.take n).getD i 0 = l.getD i 0 := by
  simp [List.getD_eq_getElem?_getD, List.getElem?_take, h]

/-- C1: for every fully-read event frame whose event type is the setup
discriminator and whose decoded SETUP packet does not match the recognized
vendor ready request, the loop performs exactly one zero-length write to the
device handle and then proceeds to the next frame. -/
theorem unrecognizedSetup_one_stall_write
    (buf : List Nat) (ready : Nat) (rest : List (ReadResult × Nat))
    (hlen : evSize ≤ buf.length)
    (hty : buf.getD 8 0 = evTypeSetup)
    (hnm : ¬((parseCtrlReq (buf.take 8)).bmRequestType = bmReqTypeVendorIn ∧
             (parseCtrlReq (buf.take 8)).bRequest = vendorReqReady)) :
    drainEP0Events ((ReadResult.ok buf, ready) :: rest) =
      EP0Action.write [] :: drainEP0Events rest := by
  have hty2 : buf[8]?.getD 0 = evTypeSetup := by
    simpa [List.getD_eq_getElem?_getD] using hty
  simp [drainEP0Events, stepEP0, Nat.not_lt.mpr hlen, dispatchFrame, hty2, hnm]

/-- Witness for C1: a full 12-byte setup frame carrying a standard (not
vendor-IN) request receives exactly one zero-length STALL write. -/
theorem unrecognizedSetup_one_stall_write_witness :
    drainEP0Events ((ReadResult.ok [0, 0, 0, 0, 0, 0, 0, 0, 4, 0, 0, 0], 0) :: []) =
      EP0Action.write [] :: drainEP0Events [] :=
  unrecognizedSetup_one_stall_write [0, 0, 0, 0, 0, 0, 0, 0, 4, 0, 0, 0] 0 []
    (by decide) (by decide) (by decide)

/-- C2: for every requested length L (0-65535) and readiness byte, the
vendor reply is exactly min(L, 8) bytes and coincides with the corresponding
initial segment of the 8-byte sequence: ASCII "TZSG" (bytes 84 90 83 71),
the protocol version little-endian, the readiness byte, one padding byte. -/
theorem vendorReply_length_and_bytes (L ready : Nat)
    (hL : L ≤ 65535) (hr : ready < 256) :
    (vendorReplyData ready L).length = min L 8 ∧
    vendorReplyData ready L =
      List.take (min L 8)
        [0x54, 0x5A, 0x53, 0x47, protoVersion % 256, protoVersion / 256 % 256,
         ready, 0] := by
  have hw : (if L > 8 then 8 else L) = min L 8 := by
    split <;> omega
  constructor
  · simp [vendorReplyData, buildVendorReply, hw]
  · simp [vendorReplyData, buildVendorReply, hw, Nat.mod_eq_of_lt hr]

/-- Witness for C2: at requested length 3 and readiness 1 the reply is the
first three bytes of "TZSG". -/
theorem vendorReply_length_and_bytes_witness :
    (vendorReplyData 1 3).length = min 3 8 ∧
    vendorReplyData 1 3 =
      List.take (min 3 8)
        [0x54, 0x5A, 0x53, 0x47, protoVersion % 256, protoVersion / 256 % 256,
         1, 0] :=
  vendorReply_length_and_bytes 3 1 (by decide) (by decide)

/-- C3: on an 8-byte buffer the codec yields requestType = byte 0,
request = byte 1, and length = little-endian u16 from bytes 6 and 7. -/
theorem parseCtrlReq_fields (b : List Nat) (h : b.length = 8) :
    (parseCtrlReq b).bmRequestType = b.getD 0 0 ∧
    (parseCtrlReq b).bRequest = b.getD 1 0 ∧
    (parseCtrlReq b).wLength = b.getD 6 0 + 256 * b.getD 7 0 :=
  ⟨rfl, rfl, rfl⟩

/-- Witness for C3: on the concrete 8-byte buffer ending in bytes 05 00 the
codec recovers requestType 192, request 1, and length 5. -/
theorem parseCtrlReq_fields_witness :
    ((parseCtrlReq [192, 1, 0, 0, 0, 0, 5, 0]).bmRequestType =
        [192, 1, 0, 0, 0, 0, 5, 0].getD 0 0 ∧
     (parseCtrlReq [192, 1, 0, 0, 0, 0, 5, 0]).bRequest =
        [192, 1, 0, 0, 0, 0, 5, 0].getD 1 0 ∧
     (parseCtrlReq [192, 1, 0, 0, 0, 0, 5, 0]).wLength =
        [192, 1, 0, 0, 0, 0, 5, 0].getD 6 0 +
          256 * [192, 1, 0, 0, 0, 0, 5, 0].getD 7 0) ∧
    (parseCtrlReq [192, 1, 0, 0, 0, 0, 5, 0]).wLength = 5 :=
  ⟨parseCtrlReq_fields [192, 1, 0, 0, 0, 0, 5, 0] (by decide), by decide⟩

/-- Helper: the clean-return action appears in a single iteration's actions
only for an EOF read result. -/
theorem stop_mem_stepEP0 (r : ReadResult) (ready : Nat)
    (h : EP0Action.stop ∈ stepEP0 r ready) : r = ReadResult.eof := by
  cases r with
  | eof => rfl
  | err => simp [stepEP0] at h
  | ok buf =>
    simp only [stepEP0] at h
    split at h
    · simp at h
    · simp only [dispatchFrame] at h
      split at h
      · simp at h
      · split at h <;> simp at h

/-- C4: an EOF read makes the loop terminate cleanly, with no write to the
device handle (its remaining trace is exactly the clean return); and the
clean return appears in a trace only when some scheduled read was EOF, so
end-of-stream is the only condition under which the loop terminates. -/
theorem eof_stops_cleanly :
    (∀ (ready : Nat) (rest : List (ReadResult × Nat)),
        drainEP0Events ((ReadResult.eof, ready) :: rest) = [EP0Action.stop]) ∧
    (∀ evs : List (ReadResult × Nat), EP0Action.stop ∈ drainEP0Events evs →
        ∃ x ∈ evs, x.1 = ReadResult.eof) := by
  constructor
  · intro ready rest
    rfl
  · intro evs
    induction evs with
    | nil =>
      intro h
      simp [drainEP0Events] at h
    | cons hd tl ih =>
      obtain ⟨r, ready⟩ := hd
      cases r with
      | eof =>
        intro _
        exact ⟨(ReadResult.eof, ready), by simp, rfl⟩
      | err =>
        intro h
        simp only [drainEP0Events, List.mem_append] at h
        rcases h with h | h
        · exact absurd (stop_mem_stepEP0 _ _ h) (by simp)
        · obtain ⟨x, hx, hx1⟩ := ih h
          exact ⟨x, List.mem_cons_of_mem _ hx, hx1⟩
      | ok buf =>
        intro h
        simp only [drainEP0Events, List.mem_append] at h
        rcases h with h | h
        · exact absurd (stop_mem_stepEP0 _ _ h) (by simp)
        · obtain ⟨x, hx, hx1⟩ := ih h
          exact ⟨x, List.mem_cons_of_mem _ hx, hx1⟩

/-- Witness for C4: on the one-element EOF schedule the trace is exactly the
clean return, and the theorem locates the EOF entry in that schedule. -/
theorem eof_stops_cleanly_witness :
    drainEP0Events [(ReadResult.eof, 0)] = [EP0Action.stop] ∧
    ∃ x ∈ [(ReadResult.eof, 0)], x.1 = ReadResult.eof :=
  ⟨eof_stops_cleanly.1 0 [], eof_stops_cleanly.2 [(ReadResult.eof, 0)] (by decide)⟩

/-- C5: any number of consecutive non-EOF read failures each produce exactly
a warn-log plus a sleep of the fixed 1-second retry delay, after which the
loop resumes reading; no number of such failures terminates the loop. -/
theorem readErrors_retry_never_fatal (n ready : Nat)
    (rest : List (ReadResult × Nat)) :
    drainEP0Events (List.replicate n (ReadResult.err, ready) ++ rest) =
      List.replicate n (EP0Action.warnSleepRetry ep0ReadRetryDelay) ++
        drainEP0Events rest := by
  induction n with
  | zero => simp
  | succ k ih =>
    simp [List.replicate_succ, drainEP0Events, stepEP0, ih]

/-- C6: a fully-read event frame whose event-type byte (byte 8) is not the
setup discriminator causes no write to the device handle; the loop goes
straight back to reading the next frame. -/
theorem nonSetupFrame_no_write
    (buf : List Nat) (ready : Nat) (rest : List (ReadResult × Nat))
    (hlen : evSize ≤ buf.length)
    (hty : buf.getD 8 0 ≠ evTypeSetup) :
    drainEP0Events ((ReadResult.ok buf, ready) :: rest) = drainEP0Events rest := by
  have hty2 : ¬ buf[8]?.getD 0 = evTypeSetup := by
    simpa [List.getD_eq_getElem?_getD] using hty
  simp [drainEP0Events, stepEP0, Nat.not_lt.mpr hlen, dispatchFrame, hty2]

/-- Witness for C6: a full 12-byte frame with event type 0 (not the setup
discriminator 4) contributes nothing to the trace. -/
theorem nonSetupFrame_no_write_witness :
    drainEP0Events ((ReadResult.ok [0, 0, 0, 0, 0, 0, 0, 0, 0, 0, 0, 0], 1) :: []) =
      drainEP0Events [] :=
  nonSetupFrame_no_write [0, 0, 0, 0, 0, 0, 0, 0, 0, 0, 0, 0] 1 []
    (by decide) (by decide)

/-- C7: a successful read of fewer than `evSize` bytes only logs the short
read; the partial frame is neither dispatched nor answered with a write, and
the loop continues with the next read rather than terminating. -/
theorem shortRead_logged_dropped
    (buf : List Nat) (ready : Nat) (rest : List (ReadResult × Nat))
    (h : buf.length < evSize) :
    drainEP0Events ((ReadResult.ok buf, ready) :: rest) =
      EP0Action.warnShort buf.length :: drainEP0Events rest := by
  simp [drainEP0Events, stepEP0, h]

/-- Witness for C7: a 3-byte partial frame is logged with its byte count and
the loop moves on. -/
theorem shortRead_logged_dropped_witness :
    drainEP0Events ((ReadResult.ok [1, 2, 3], 0) :: []) =
      EP0Action.warnShort 3 :: drainEP0Events [] :=
  shortRead_logged_dropped [1, 2, 3] 0 [] (by decide)

/-- C8: for every byte value held by the readiness flag, byte 6 of the
assembled vendor reply is that value verbatim — the reply reports exactly
the readiness value supplied when the reply is built. -/
theorem readinessByte_verbatim (ready : Nat) (h : ready < 256) :
    (buildVendorReply ready).getD 6 0 = ready := by
  simp [buildVendorReply, Nat.mod_eq_of_lt h]

/-- Witness for C8: a stored readiness value of 1 appears verbatim at
offset 6 of the reply. -/
theorem readinessByte_verbatim_witness :
    (buildVendorReply 1).getD 6 0 = 1 :=
  readinessByte_verbatim 1 (by decide)

/-- C9: the vendor reply is a pure, deterministic function of the requested
length and the readiness value: two loop iterations given the same readiness
value and frames agreeing on the request-type, request and wLength bytes
(bytes 0, 1, 6, 7) produce byte-identical actions — in particular two builds
of the reply with the same readiness and requested length are identical,
whatever the rest of the frame (wValue, wIndex, reserved bytes) contains. -/
theorem vendorReply_deterministic (b1 b2 : List Nat) (ready : Nat)
    (h1 : evSize ≤ b1.length) (h2 : evSize ≤ b2.length)
    (ht1 : b1.getD 8 0 = evTypeSetup) (ht2 : b2.getD 8 0 = evTypeSetup)
    (e0 : b1.getD 0 0 = b2.getD 0 0) (e1 : b1.getD 1 0 = b2.getD 1 0)
    (e6 : b1.getD 6 0 = b2.getD 6 0) (e7 : b1.getD 7 0 = b2.getD 7 0) :
    stepEP0 (ReadResult.ok b1) ready = stepEP0 (ReadResult.ok b2) ready := by
  have g0 := getD_take_of_lt b1 8 0 (by decide)
  have g1 := getD_take_of_lt b1 8 1 (by decide)
  have g6 := getD_take_of_lt b1 8 6 (by decide)
  have g7 := getD_take_of_lt b1 8 7 (by decide)
  have k0 := getD_take_of_lt b2 8 0 (by decide)
  have k1 := getD_take_of_lt b2 8 1 (by decide)
  have k6 := getD_take_of_lt b2 8 6 (by decide)
  have k7 := getD_take_of_lt b2 8 7 (by decide)
  simp only [stepEP0, Nat.not_lt.mpr h1, Nat.not_lt.mpr h2, if_neg,
    dispatchFrame, parseCtrlReq, ht1, ht2, g0, g1, g6, g7, k0, k1, k6, k7,
    e0, e1, e6, e7]
  simp [ht1, ht2, e0, e1, e6, e7]

/-- Witness for C9: two vendor ready frames with identical bytes 0, 1, 6, 7
but different wValue, wIndex and reserved bytes yield the same actions. -/
theorem vendorReply_deterministic_witness :
    stepEP0 (ReadResult.ok [192, 1, 7, 7, 0, 0, 5, 0, 4, 0, 0, 0]) 1 =
      stepEP0 (ReadResult.ok [192, 1, 9, 9, 3, 3, 5, 0, 4, 1, 2, 3]) 1 :=
  vendorReply_deterministic
    [192, 1, 7, 7, 0, 0, 5, 0, 4, 0, 0, 0]
    [192, 1, 9, 9, 3, 3, 5, 0, 4, 1, 2, 3] 1
    (by decide) (by decide) (by decide) (by decide)
    (by decide) (by decide) (by decide) (by decide)

/-- C10: a recognized vendor ready request whose wLength is 0 is answered
with a zero-length write — at the device-file interface the very same
action, `EP0Action.write []`, used to signal STALL for unrecognized
requests. -/
theorem vendorZeroLength_write
    (buf : List Nat) (ready : Nat) (rest : List (ReadResult × Nat))
    (hlen : evSize ≤ buf.length)
    (hty : buf.getD 8 0 = evTypeSetup)
    (hreq : (parseCtrlReq (buf.take 8)).bmRequestType = bmReqTypeVendorIn)
    (hcode : (parseCtrlReq (buf.take 8)).bRequest = vendorReqReady)
    (hwl : (parseCtrlReq (buf.take 8)).wLength = 0) :
    drainEP0Events ((ReadResult.ok buf, ready) :: rest) =
      EP0Action.write [] :: drainEP0Events rest := by
  have hty2 : buf[8]?.getD 0 = evTypeSetup := by
    simpa [List.getD_eq_getElem?_getD] using hty
  simp [drainEP0Events, stepEP0, Nat.not_lt.mpr hlen, dispatchFrame, hty2,
    hreq, hcode, hwl, vendorReplyData]

/-- Witness for C10: a concrete vendor ready frame with wLength 0 receives
the zero-length write. -/
theorem vendorZeroLength_write_witness :
    drainEP0Events ((ReadResult.ok [192, 1, 0, 0, 0, 0, 0, 0, 4, 0, 0, 0], 5) :: []) =
      EP0Action.write [] :: drainEP0Events [] :=
  vendorZeroLength_write [192, 1, 0, 0, 0, 0, 0, 0, 4, 0, 0, 0] 5 []
    (by decide) (by decide) (by decide) (by decide) (by decide)
